import Mathlib

/-!
Verification development for the flight-rescheduler conflict-detection and
reschedule-orchestration engine.

The definitions below are a shallow embedding of the TypeScript source:

* `checkWeatherViolations`, `WEATHER_MINIMUMS` embed the minimums rule
  engine of convex/conflicts.ts (lines 34-133);
* `getLatestWeatherForLocation`, `createOrUpdateConflict`,
  `markBookingAsConflict`, `resolveConflictsForBooking`,
  `clearBookingConflict` and `checkBookingForConflicts` embed the conflict
  lifecycle of convex/conflicts.ts, with the Convex tables modelled as
  lists of rows carried in an explicit state record and Date.now() passed
  as an explicit argument;
* `getCachedWeather` and `WEATHER_CACHE_TTL_MS` embed the weather cache
  query of convex/weather.ts;
* `generateFallbackSuggestions`, `generateRescheduleAIResponse`,
  `acceptRescheduleOption` and `rejectRescheduleOptions` embed
  convex/reschedule.ts, with the JavaScript Date calendar arithmetic
  modelled by a (day index, millisecond-of-day) pair.

JavaScript numbers are modelled as rationals, timestamps as integers,
fallible handlers as `Except`, and the JavaScript truthiness test on an
optional numeric field (undefined and 0 are falsy) as `optTruthy`.
-/

namespace FlightRescheduler

/-- Severity classification of a weather conflict. -/
inductive Severity where
  | high
  | medium
  | low
deriving DecidableEq

/-- Pilot training levels. -/
inductive TrainingLevel where
  | studentPilot
  | privatePilot
  | instrumentRated
deriving DecidableEq

/-- Per-training-level weather thresholds (conflicts.ts lines 22-30). -/
structure WeatherMinimums where
  minVisibility : Option ℚ
  minCeiling : Option ℚ
  maxWindSpeed : ℚ
  requiresClearSkies : Bool
  allowIMC : Bool
  allowThunderstorms : Bool
  allowIcing : Bool
deriving DecidableEq

/-- The fixed minimums table (conflicts.ts lines 34-62). -/
def WEATHER_MINIMUMS : TrainingLevel → WeatherMinimums
  | .studentPilot =>
    { minVisibility := some 5
      minCeiling := none
      maxWindSpeed := 10
      requiresClearSkies := true
      allowIMC := false
      allowThunderstorms := false
      allowIcing := false }
  | .privatePilot =>
    { minVisibility := some 3
      minCeiling := some 1000
      maxWindSpeed := 15
      requiresClearSkies := false
      allowIMC := false
      allowThunderstorms := false
      allowIcing := false }
  | .instrumentRated =>
    { minVisibility := none
      minCeiling := none
      maxWindSpeed := 25
      requiresClearSkies := false
      allowIMC := true
      allowThunderstorms := false
      allowIcing := false }

/-- The weather fields of a weatherData row that the rule engine reads. -/
structure WeatherObs where
  visibility : ℚ
  ceiling : Option ℚ
  windSpeed : ℚ
  hasThunderstorms : Bool
  hasIcing : Bool
deriving DecidableEq

/-- JavaScript truthiness of an optional numeric field: undefined and 0 are
falsy, every other number is truthy. -/
def optTruthy : Option ℚ → Bool
  | none => false
  | some x => x != 0

/-- One entry of the violations array.  The source pushes formatted strings;
each constructor carries the data interpolated into the corresponding string,
so list length and order are preserved exactly. -/
inductive Violation where
  | visibilityLow (vis required : ℚ)
  | ceilingUnavailable (required : ℚ)
  | ceilingLow (ceil required : ℚ)
  | cloudsPresent
  | windHigh (wind maxAllowed : ℚ)
  | thunderstorms
  | icing
deriving DecidableEq

/-- The minimums rule engine (conflicts.ts lines 69-133): sequence of checks
building the violations array, then the severity computation. -/
def checkWeatherViolations (weather : WeatherObs) (trainingLevel : TrainingLevel) :
    List Violation × Severity :=
  let minimums := WEATHER_MINIMUMS trainingLevel
  let violations : List Violation := []
  -- visibility check (line 77): truthiness guard on the optional minimum
  let violations :=
    match minimums.minVisibility with
    | some m =>
      if m != 0 && decide (weather.visibility < m) then
        violations ++ [Violation.visibilityLow weather.visibility m]
      else violations
    | none => violations
  -- ceiling check (lines 84-96)
  let violations :=
    match minimums.minCeiling with
    | some m =>
      if m != 0 then
        if !optTruthy weather.ceiling then
          if !minimums.requiresClearSkies then
            violations ++ [Violation.ceilingUnavailable m]
          else violations
        else
          match weather.ceiling with
          | some c =>
            if c < m then violations ++ [Violation.ceilingLow c m] else violations
          | none => violations
      else violations
    | none => violations
  -- clear-skies check (line 99): strict comparison with undefined
  let violations :=
    if minimums.requiresClearSkies && weather.ceiling.isSome then
      violations ++ [Violation.cloudsPresent]
    else violations
  -- wind check (line 104)
  let violations :=
    if decide (weather.windSpeed > minimums.maxWindSpeed) then
      violations ++ [Violation.windHigh weather.windSpeed minimums.maxWindSpeed]
    else violations
  -- thunderstorm check (line 111)
  let violations :=
    if !minimums.allowThunderstorms && weather.hasThunderstorms then
      violations ++ [Violation.thunderstorms]
    else violations
  -- icing check (line 116)
  let violations :=
    if !minimums.allowIcing && weather.hasIcing then
      violations ++ [Violation.icing]
    else violations
  -- severity (lines 121-130)
  let severity : Severity :=
    if weather.hasThunderstorms || weather.hasIcing ||
        decide (weather.windSpeed > minimums.maxWindSpeed * 1.5) then
      .high
    else if violations.length ≥ 2 then .medium
    else .low
  (violations, severity)

/-- Booking status values of the flightBookings table. -/
inductive BookingStatus where
  | scheduled
  | weatherConflict
  | rescheduled
  | completed
  | cancelled
deriving DecidableEq

/-- The fields of a flightBookings row that the engine reads or writes.
The departure location is flattened to its coordinates. -/
structure Booking where
  id : ℕ
  studentId : ℕ
  instructorId : ℕ
  status : BookingStatus
  scheduledDate : ℤ
  depLat : ℚ
  depLon : ℚ
  updatedAt : ℤ
deriving DecidableEq

/-- The fields of a students row that the engine reads. -/
structure Student where
  id : ℕ
  trainingLevel : TrainingLevel
deriving DecidableEq

/-- A weatherData row: location key, observation timestamp, expiry
timestamp and the observed weather fields. -/
structure WeatherRow where
  id : ℕ
  lat : ℚ
  lon : ℚ
  timestamp : ℤ
  expiresAt : ℤ
  obs : WeatherObs
deriving DecidableEq

/-- A weatherConflicts row. -/
structure ConflictRow where
  id : ℕ
  bookingId : ℕ
  detectedAt : ℤ
  weatherDataId : ℕ
  studentTrainingLevel : TrainingLevel
  violatedConditions : List Violation
  severity : Severity
  resolved : Bool
  resolvedAt : Option ℤ
deriving DecidableEq

/-- The database state read and written by the conflict lifecycle: the
tables are lists of rows in insertion order, with a counter supplying
fresh conflict ids and a counter of scheduled conflict notifications. -/
structure CState where
  bookings : List Booking
  students : List Student
  weatherRows : List WeatherRow
  conflicts : List ConflictRow
  nextConflictId : ℕ
  notificationsScheduled : ℕ
deriving DecidableEq

/-- getBookingWithStudent (conflicts.ts lines 255-266): the booking joined
with its student, none if either is missing. -/
def getBookingWithStudent (s : CState) (bookingId : ℕ) : Option (Booking × Student) :=
  match s.bookings.find? (fun b => b.id == bookingId) with
  | none => none
  | some booking =>
    match s.students.find? (fun st => st.id == booking.studentId) with
    | none => none
    | some student => some (booking, student)

/-- The JavaScript reduce over a nonempty list picking the element with the
strictly greatest observation timestamp, keeping the earlier element on
ties (weather.ts lines 339-341 and conflicts.ts lines 282-284). -/
def latestByTimestamp (h : WeatherRow) (t : List WeatherRow) : WeatherRow :=
  t.foldl (fun latest current =>
    if current.timestamp > latest.timestamp then current else latest) h

/-- getLatestWeatherForLocation (conflicts.ts lines 268-286): all rows for
the exact location, reduced to the most recent by observation timestamp.
Note that expiry is not consulted. -/
def getLatestWeatherForLocation (s : CState) (lat lon : ℚ) : Option WeatherRow :=
  match s.weatherRows.filter (fun r => r.lat == lat && r.lon == lon) with
  | [] => none
  | h :: t => some (latestByTimestamp h t)

/-- WEATHER_CACHE_TTL_MS (weather.ts line 18): 30 minutes. -/
def WEATHER_CACHE_TTL_MS : ℤ := 30 * 60 * 1000

/-- getCachedWeather (weather.ts lines 321-343): rows for the exact
location whose expiry timestamp is strictly greater than now, reduced to
the most recent by observation timestamp. -/
def getCachedWeather (now : ℤ) (rows : List WeatherRow) (lat lon : ℚ) :
    Option WeatherRow :=
  match rows.filter (fun r => r.lat == lat && r.lon == lon &&
      decide (r.expiresAt > now)) with
  | [] => none
  | h :: t => some (latestByTimestamp h t)

/-- createOrUpdateConflict (conflicts.ts lines 308-366): patch the first
unresolved conflict of the booking in place if one exists, otherwise insert
a new unresolved conflict row and schedule a notification. -/
def createOrUpdateConflict (now : ℤ) (s : CState) (bookingId weatherDataId : ℕ)
    (studentTrainingLevel : TrainingLevel) (violations : List Violation)
    (severity : Severity) : CState × ℕ :=
  match s.conflicts.find? (fun c => c.bookingId == bookingId && c.resolved == false) with
  | some existing =>
    ({ s with conflicts := s.conflicts.map (fun c =>
        if c.id == existing.id then
          { c with weatherDataId := weatherDataId
                   violatedConditions := violations
                   severity := severity
                   detectedAt := now }
        else c) },
     existing.id)
  | none =>
    let conflictId := s.nextConflictId
    let row : ConflictRow :=
      { id := conflictId
        bookingId := bookingId
        detectedAt := now
        weatherDataId := weatherDataId
        studentTrainingLevel := studentTrainingLevel
        violatedConditions := violations
        severity := severity
        resolved := false
        resolvedAt := none }
    let s1 := { s with conflicts := s.conflicts ++ [row]
                       nextConflictId := s.nextConflictId + 1 }
    match s1.bookings.find? (fun b => b.id == bookingId) with
    | some _ =>
      ({ s1 with notificationsScheduled := s1.notificationsScheduled + 1 }, conflictId)
    | none => (s1, conflictId)

/-- markBookingAsConflict (conflicts.ts lines 368-379). -/
def markBookingAsConflict (now : ℤ) (s : CState) (bookingId : ℕ) : CState :=
  match s.bookings.find? (fun b => b.id == bookingId) with
  | some booking =>
    if booking.status = .scheduled then
      { s with bookings := s.bookings.map (fun b =>
          if b.id == bookingId then
            { b with status := .weatherConflict, updatedAt := now }
          else b) }
    else s
  | none => s

/-- resolveConflictsForBooking (conflicts.ts lines 381-398). -/
def resolveConflictsForBooking (now : ℤ) (s : CState) (bookingId : ℕ) : CState :=
  { s with conflicts := s.conflicts.map (fun c =>
      if c.bookingId == bookingId && c.resolved == false then
        { c with resolved := true, resolvedAt := some now }
      else c) }

/-- clearBookingConflict (conflicts.ts lines 400-411). -/
def clearBookingConflict (now : ℤ) (s : CState) (bookingId : ℕ) : CState :=
  match s.bookings.find? (fun b => b.id == bookingId) with
  | some booking =>
    if booking.status = .weatherConflict then
      { s with bookings := s.bookings.map (fun b =>
          if b.id == bookingId then
            { b with status := .scheduled, updatedAt := now }
          else b) }
    else s
  | none => s

/-- The non-null result shape of checkBookingForConflicts. -/
inductive CheckOutcome where
  | conflict (conflictId : ℕ) (violations : List Violation) (severity : Severity)
  | noConflict
deriving DecidableEq

/-- checkBookingForConflicts (conflicts.ts lines 140-207): look up booking
and student, skip unless the booking status is scheduled, look up the
latest weather for the departure location, run the rule engine, then either
upsert a conflict and mark the booking or resolve conflicts and clear the
booking. -/
def checkBookingForConflicts (now : ℤ) (s : CState) (bookingId : ℕ) :
    CState × Option CheckOutcome :=
  match getBookingWithStudent s bookingId with
  | none => (s, none)
  | some (booking, student) =>
    if booking.status ≠ .scheduled then (s, none)
    else
      match getLatestWeatherForLocation s booking.depLat booking.depLon with
      | none => (s, none)
      | some weather =>
        let res := checkWeatherViolations weather.obs student.trainingLevel
        if res.1 ≠ [] then
          let step := createOrUpdateConflict now s bookingId weather.id
            student.trainingLevel res.1 res.2
          let s2 := markBookingAsConflict now step.1 bookingId
          (s2, some (.conflict step.2 res.1 res.2))
        else
          let s1 := resolveConflictsForBooking now s bookingId
          let s2 := clearBookingConflict now s1 bookingId
          (s2, some .noConflict)

/-- A concrete scheduled booking used in witnesses. -/
def wBooking : Booking :=
  { id := 0, studentId := 0, instructorId := 0, status := .scheduled,
    scheduledDate := 0, depLat := 1, depLon := 2, updatedAt := 0 }

/-- A concrete student-pilot student used in witnesses. -/
def wStudent : Student :=
  { id := 0, trainingLevel := .studentPilot }

/-- A concrete weather row violating student-pilot minimums
(visibility 3 mi below the 5 mi minimum). -/
def wViolatingWeather : WeatherRow :=
  { id := 7, lat := 1, lon := 2, timestamp := 50, expiresAt := 1000,
    obs := { visibility := 3, ceiling := none, windSpeed := 5,
             hasThunderstorms := false, hasIcing := false } }

/-- A concrete state with one scheduled booking, its student, one violating
weather row and no conflicts. -/
def wState : CState :=
  { bookings := [wBooking], students := [wStudent],
    weatherRows := [wViolatingWeather], conflicts := [], nextConflictId := 0,
    notificationsScheduled := 0 }

/-- A concrete booking already in weather-conflict status. -/
def wC2Booking : Booking :=
  { id := 0, studentId := 0, instructorId := 0, status := .weatherConflict,
    scheduledDate := 0, depLat := 1, depLon := 2, updatedAt := 0 }

/-- A concrete weather row satisfying student-pilot minimums. -/
def wCleanWeather : WeatherRow :=
  { id := 8, lat := 1, lon := 2, timestamp := 60, expiresAt := 1000,
    obs := { visibility := 10, ceiling := none, windSpeed := 2,
             hasThunderstorms := false, hasIcing := false } }

/-- A concrete unresolved conflict row for booking 0. -/
def wC2Conflict : ConflictRow :=
  { id := 0, bookingId := 0, detectedAt := 40, weatherDataId := 7,
    studentTrainingLevel := .studentPilot,
    violatedConditions := [Violation.visibilityLow 3 5], severity := .low,
    resolved := false, resolvedAt := none }

/-- A concrete state whose booking is in weather-conflict status, with an
unresolved conflict row and clean current weather. -/
def wC2State : CState :=
  { bookings := [wC2Booking], students := [wStudent],
    weatherRows := [wCleanWeather], conflicts := [wC2Conflict],
    nextConflictId := 1, notificationsScheduled := 1 }

/-- A concrete weather row violating student-pilot minimums whose expiry
timestamp is already in the past at time 200. -/
def wExpiredWeather : WeatherRow :=
  { id := 9, lat := 1, lon := 2, timestamp := 10, expiresAt := 100,
    obs := { visibility := 3, ceiling := none, windSpeed := 5,
             hasThunderstorms := false, hasIcing := false } }

/-- A concrete state whose only cached observation for the booking location
is expired. -/
def wC6State : CState :=
  { bookings := [wBooking], students := [wStudent],
    weatherRows := [wExpiredWeather], conflicts := [], nextConflictId := 0,
    notificationsScheduled := 0 }

/-- A concrete weather row stored at t = 0 with the 30-minute TTL. -/
def wTTLRow : WeatherRow :=
  { id := 0, lat := 1, lon := 2, timestamp := 0,
    expiresAt := 0 + WEATHER_CACHE_TTL_MS,
    obs := { visibility := 10, ceiling := none, windSpeed := 2,
             hasThunderstorms := false, hasIcing := false } }

/-- A suggested reschedule option (reschedule.ts lines 21-26). -/
structure RescheduleOption where
  date : ℤ
  reasoning : String
  weatherForecast : Option String
  score : ℚ
deriving DecidableEq

/-- The structured response of a suggestion provider
(reschedule.ts lines 28-32). -/
structure AIRescheduleResponse where
  options : List RescheduleOption
  overallReasoning : String
  model : String
deriving DecidableEq

/-- Calendar-level model of a JavaScript Date in the local timezone: a
linear day index together with the milliseconds elapsed within that day. -/
structure JSDate where
  day : ℤ
  msOfDay : ℤ
deriving DecidableEq

/-- setDate(getDate() + n): shift the day index keeping the time of day. -/
def JSDate.addDays (d : JSDate) (n : ℤ) : JSDate :=
  { d with day := d.day + n }

/-- setHours(h, m, s, ms): set the time of day. -/
def JSDate.setHours (d : JSDate) (h m sec ms : ℤ) : JSDate :=
  { d with msOfDay := h * 3600000 + m * 60000 + sec * 1000 + ms }

/-- getTime(): linearize to epoch milliseconds. -/
def JSDate.getTime (d : JSDate) : ℤ :=
  d.day * 86400000 + d.msOfDay

/-- The booking context assembled for the suggestion providers
(reschedule.ts lines 247-252), with the original date at calendar level. -/
structure BookingInfo where
  studentName : String
  trainingLevel : TrainingLevel
  originalDate : JSDate
  location : String
deriving DecidableEq

/-- generateFallbackSuggestions (reschedule.ts lines 299-341): three fixed
options relative to the original date, scores 75, 80, 85, under the
fallback-rules identifier. -/
def generateFallbackSuggestions (bookingInfo : BookingInfo) : AIRescheduleResponse :=
  let original := bookingInfo.originalDate
  let tomorrow := (original.addDays 1).setHours 9 0 0 0
  let option1 : RescheduleOption :=
    { date := tomorrow.getTime
      reasoning := "Next day morning slot typically has better weather conditions and visibility."
      weatherForecast := some "Expected clear conditions"
      score := 75 }
  let dayAfter := (original.addDays 2).setHours 10 0 0 0
  let option2 : RescheduleOption :=
    { date := dayAfter.getTime
      reasoning := "Two-day buffer allows weather systems to pass. Mid-morning offers stable conditions."
      weatherForecast := some "Likely improved conditions"
      score := 80 }
  let threeDays := (original.addDays 3).setHours 8 0 0 0
  let option3 : RescheduleOption :=
    { date := threeDays.getTime
      reasoning := "Extended forecast window. Early morning minimizes afternoon weather instability."
      weatherForecast := some "Generally favorable"
      score := 85 }
  { options := [option1, option2, option3]
    overallReasoning := "Rule-based suggestions prioritizing morning hours within 3 days for weather stability."
    model := "fallback-rules" }

/-- Which provider credentials are configured in the environment. -/
structure ProviderEnv where
  openaiConfigured : Bool
  anthropicConfigured : Bool
deriving DecidableEq

/-- The provider-selection outcome of generateRescheduleOptions: the chosen
response and whether each reasoning-service call was attempted. -/
structure ProviderTrace where
  response : AIRescheduleResponse
  openaiAttempted : Bool
  anthropicAttempted : Bool
deriving DecidableEq

/-- The provider try/catch of generateRescheduleOptions (reschedule.ts
lines 260-274): if the OpenAI key is configured call OpenAI, otherwise if
the Anthropic key is configured call Anthropic, otherwise throw; any error
is caught and replaced by the deterministic fallback.  The two call
arguments give the result each external call would produce if it were
made. -/
def generateRescheduleAIResponse (env : ProviderEnv)
    (openaiCall anthropicCall : Except String AIRescheduleResponse)
    (bookingInfo : BookingInfo) : ProviderTrace :=
  if env.openaiConfigured then
    match openaiCall with
    | .ok r => { response := r, openaiAttempted := true, anthropicAttempted := false }
    | .error _ =>
      { response := generateFallbackSuggestions bookingInfo
        openaiAttempted := true
        anthropicAttempted := false }
  else if env.anthropicConfigured then
    match anthropicCall with
    | .ok r => { response := r, openaiAttempted := false, anthropicAttempted := true }
    | .error _ =>
      { response := generateFallbackSuggestions bookingInfo
        openaiAttempted := false
        anthropicAttempted := true }
  else
    { response := generateFallbackSuggestions bookingInfo
      openaiAttempted := false
      anthropicAttempted := false }

/-- Status of a rescheduleOptions row. -/
inductive RescheduleStatus where
  | pending
  | accepted
  | rejected
deriving DecidableEq

/-- A rescheduleOptions row. -/
structure OptionSetRow where
  id : ℕ
  bookingId : ℕ
  conflictId : ℕ
  suggestedDates : List RescheduleOption
  aiModel : String
  aiReasoning : String
  generatedAt : ℤ
  status : RescheduleStatus
  selectedOptionIndex : Option ℕ
deriving DecidableEq

/-- The database state read and written by the option lifecycle, with a
counter of audit-log inserts. -/
structure RState where
  bookings : List Booking
  rescheduleOptionSets : List OptionSetRow
  auditEntries : ℕ
deriving DecidableEq

/-- acceptRescheduleOption (reschedule.ts lines 488-534): load the option
set (throw if missing), index into its stored options (throw if out of
bounds), then patch the booking to the chosen date with status rescheduled,
mark the set accepted recording the index, and insert an audit entry.
Convex db.patch throws when the target document does not exist, so the
booking is looked up as well. -/
def acceptRescheduleOption (now : ℤ) (s : RState) (rescheduleId : ℕ)
    (selectedOptionIndex : ℕ) : Except String (RState × ℤ) :=
  match s.rescheduleOptionSets.find? (fun r => r.id == rescheduleId) with
  | none => .error ("Reschedule options not found")
  | some reschedule =>
    match reschedule.suggestedDates[selectedOptionIndex]? with
    | none => .error ("Invalid option index")
    | some selectedOption =>
      match s.bookings.find? (fun b => b.id == reschedule.bookingId) with
      | none => .error ("Booking document not found")
      | some _ =>
        let patchedBookings := s.bookings.map (fun b =>
          if b.id == reschedule.bookingId then
            { b with scheduledDate := selectedOption.date,
                     status := BookingStatus.rescheduled, updatedAt := now }
          else b)
        let s1 := { s with bookings := patchedBookings }
        let patchedSets := s1.rescheduleOptionSets.map (fun r =>
          if r.id == rescheduleId then
            { r with status := RescheduleStatus.accepted,
                     selectedOptionIndex := some selectedOptionIndex }
          else r)
        let s2 := { s1 with rescheduleOptionSets := patchedSets }
        .ok ({ s2 with auditEntries := s2.auditEntries + 1 }, selectedOption.date)

/-- rejectRescheduleOptions (reschedule.ts lines 539-563): patch the set to
rejected, throwing only when the document is missing, and insert an audit
entry.  The booking is untouched and no status guard is performed. -/
def rejectRescheduleOptions (s : RState) (rescheduleId : ℕ) :
    Except String RState :=
  match s.rescheduleOptionSets.find? (fun r => r.id == rescheduleId) with
  | none => .error ("Reschedule options document not found")
  | some _ =>
    let patchedSets := s.rescheduleOptionSets.map (fun r =>
      if r.id == rescheduleId then { r with status := RescheduleStatus.rejected }
      else r)
    let s1 := { s with rescheduleOptionSets := patchedSets }
    .ok { s1 with auditEntries := s1.auditEntries + 1 }

/-- Convex mutations are transactional: a throw rolls back all writes.
runAccept returns the post-state, which is the input state unchanged on
error. -/
def runAccept (now : ℤ) (s : RState) (rescheduleId selectedOptionIndex : ℕ) :
    RState × Except String ℤ :=
  match acceptRescheduleOption now s rescheduleId selectedOptionIndex with
  | .ok (s2, d) => (s2, .ok d)
  | .error e => (s, .error e)

/-- A concrete first reschedule option. -/
def wOption0 : RescheduleOption :=
  { date := 1111, reasoning := "first", weatherForecast := none, score := 70 }

/-- A concrete second reschedule option. -/
def wOption1 : RescheduleOption :=
  { date := 2222, reasoning := "second", weatherForecast := none, score := 90 }

/-- A concrete pending option set with two options for booking 0. -/
def wPendingSet : OptionSetRow :=
  { id := 0, bookingId := 0, conflictId := 0,
    suggestedDates := [wOption0, wOption1], aiModel := "gpt-4o-mini",
    aiReasoning := "r", generatedAt := 0, status := .pending,
    selectedOptionIndex := none }

/-- A concrete reschedule state with a pending set and its booking. -/
def wRState : RState :=
  { bookings := [wBooking], rescheduleOptionSets := [wPendingSet],
    auditEntries := 0 }

/-- The booking after a first accept of option 0. -/
def wRescheduledBooking : Booking :=
  { id := 0, studentId := 0, instructorId := 0, status := .rescheduled,
    scheduledDate := 1111, depLat := 1, depLon := 2, updatedAt := 400 }

/-- The option set after a first accept of option 0. -/
def wAcceptedSet : OptionSetRow :=
  { id := 0, bookingId := 0, conflictId := 0,
    suggestedDates := [wOption0, wOption1], aiModel := "gpt-4o-mini",
    aiReasoning := "r", generatedAt := 0, status := .accepted,
    selectedOptionIndex := some 0 }

/-- A concrete state in which the option set is already finalized. -/
def wFinalState : RState :=
  { bookings := [wRescheduledBooking], rescheduleOptionSets := [wAcceptedSet],
    auditEntries := 1 }

/-- A concrete booking context for the suggestion providers. -/
def wBookingInfo : BookingInfo :=
  { studentName := "Alex", trainingLevel := .studentPilot,
    originalDate := { day := 100, msOfDay := 0 }, location := "KPAO" }

/-- A concrete successful provider response. -/
def wOkResponse : AIRescheduleResponse :=
  { options := [wOption0], overallReasoning := "ok",
    model := "claude-3-5-sonnet-20241022" }

/-- Patching rows through a map that preserves the searched predicate
commutes with find?. -/
theorem find_map_of_key_preserved {α : Type} (p : α → Bool) (g : α → α)
    (hg : ∀ x, p (g x) = p x) (l : List α) :
    (l.map g).find? p = (l.find? p).map g := by
  induction l with
  | nil => rfl
  | cons hd tl ih =>
    by_cases h : p hd = true
    · rw [List.map_cons, List.find?_cons_of_pos _ ((hg hd).trans h),
        List.find?_cons_of_pos _ h, Option.map_some']
    · have h1 : ¬ p (g hd) = true := by rw [hg]; exact h
      rw [List.map_cons, List.find?_cons_of_neg _ h1, List.find?_cons_of_neg _ h, ih]

/-- The reduce result is one of the reduced rows. -/
theorem latestByTimestamp_mem (t : List WeatherRow) (h : WeatherRow) :
    latestByTimestamp h t ∈ h :: t := by
  induction t generalizing h with
  | nil => simp [latestByTimestamp]
  | cons c t ih =>
    have hstep : latestByTimestamp h (c :: t) =
        latestByTimestamp (if c.timestamp > h.timestamp then c else h) t := rfl
    rw [hstep]
    rcases List.mem_cons.mp (ih (if c.timestamp > h.timestamp then c else h)) with
      h1 | h1
    · by_cases hc : c.timestamp > h.timestamp
      · rw [h1, if_pos hc]
        exact List.mem_cons_of_mem _ (List.mem_cons_self _ _)
      · rw [h1, if_neg hc]
        exact List.mem_cons_self _ _
    · exact List.mem_cons_of_mem _ (List.mem_cons_of_mem _ h1)

/-- The reduce result has the greatest observation timestamp. -/
theorem latestByTimestamp_le (t : List WeatherRow) (h : WeatherRow) :
    ∀ u ∈ h :: t, u.timestamp ≤ (latestByTimestamp h t).timestamp := by
  induction t generalizing h with
  | nil =>
    intro u hu
    rcases List.mem_cons.mp hu with h1 | h1
    · rw [h1]
      exact le_of_eq rfl
    · exact absurd h1 (List.not_mem_nil u)
  | cons c t ih =>
    intro u hu
    have hstep : latestByTimestamp h (c :: t) =
        latestByTimestamp (if c.timestamp > h.timestamp then c else h) t := rfl
    rw [hstep]
    have hh : h.timestamp ≤ (if c.timestamp > h.timestamp then c else h).timestamp := by
      by_cases hc : c.timestamp > h.timestamp
      · rw [if_pos hc]
        exact le_of_lt hc
      · rw [if_neg hc]
    have hcle : c.timestamp ≤ (if c.timestamp > h.timestamp then c else h).timestamp := by
      by_cases hc : c.timestamp > h.timestamp
      · rw [if_pos hc]
      · rw [if_neg hc]
        exact le_of_not_lt hc
    have hmax := ih (if c.timestamp > h.timestamp then c else h)
    rcases List.mem_cons.mp hu with h1 | h1
    · rw [h1]
      exact le_trans hh (hmax _ (List.mem_cons_self _ _))
    · rcases List.mem_cons.mp h1 with h3 | h3
      · rw [h3]
        exact le_trans hcle (hmax _ (List.mem_cons_self _ _))
      · exact hmax u (List.mem_cons_of_mem _ h3)

/-- createOrUpdateConflict never changes the bookings table. -/
theorem createOrUpdateConflict_bookings (now : ℤ) (s : CState)
    (bookingId weatherDataId : ℕ) (lvl : TrainingLevel) (viol : List Violation)
    (sev : Severity) :
    (createOrUpdateConflict now s bookingId weatherDataId lvl viol sev).1.bookings =
      s.bookings := by
  simp only [createOrUpdateConflict]
  split
  · rfl
  · split
    · rfl
    · rfl

/-- createOrUpdateConflict never changes the students table. -/
theorem createOrUpdateConflict_students (now : ℤ) (s : CState)
    (bookingId weatherDataId : ℕ) (lvl : TrainingLevel) (viol : List Violation)
    (sev : Severity) :
    (createOrUpdateConflict now s bookingId weatherDataId lvl viol sev).1.students =
      s.students := by
  simp only [createOrUpdateConflict]
  split
  · rfl
  · split
    · rfl
    · rfl

/-- With no unresolved conflict for the booking, createOrUpdateConflict
appends one fresh unresolved row. -/
theorem createOrUpdateConflict_conflicts_of_none (now : ℤ) (s : CState)
    (bookingId weatherDataId : ℕ) (lvl : TrainingLevel) (viol : List Violation)
    (sev : Severity)
    (hnone : s.conflicts.find?
      (fun c => c.bookingId == bookingId && c.resolved == false) = none) :
    (createOrUpdateConflict now s bookingId weatherDataId lvl viol sev).1.conflicts =
      s.conflicts ++
        [{ id := s.nextConflictId, bookingId := bookingId, detectedAt := now,
           weatherDataId := weatherDataId, studentTrainingLevel := lvl,
           violatedConditions := viol, severity := sev, resolved := false,
           resolvedAt := none }] := by
  simp only [createOrUpdateConflict]
  rw [hnone]
  split
  · rename_i existing heq
    exact Option.noConfusion heq
  · split
    · rfl
    · rfl

/-- markBookingAsConflict never changes the conflicts table. -/
theorem markBookingAsConflict_conflicts (now : ℤ) (s : CState) (bookingId : ℕ) :
    (markBookingAsConflict now s bookingId).conflicts = s.conflicts := by
  unfold markBookingAsConflict
  split
  · split
    · rfl
    · rfl
  · rfl

/-- markBookingAsConflict never changes the students table. -/
theorem markBookingAsConflict_students (now : ℤ) (s : CState) (bookingId : ℕ) :
    (markBookingAsConflict now s bookingId).students = s.students := by
  unfold markBookingAsConflict
  split
  · split
    · rfl
    · rfl
  · rfl

/-- C1: at most one unresolved conflict per booking.  First, when an
unresolved conflict already exists for the booking, createOrUpdateConflict
patches that row in place (same row count, its id is returned) updating its
weather reference, violations, severity and detection timestamp.  Second,
starting from a state with no conflict row for the booking, running
checkBookingForConflicts twice with violating weather leaves exactly one
conflict row for that booking after each run. -/
theorem conflict_upsert_single_row :
    (∀ (now : ℤ) (s : CState) (bookingId weatherDataId : ℕ)
        (lvl : TrainingLevel) (viol : List Violation) (sev : Severity)
        (e : ConflictRow),
      s.conflicts.find? (fun c => c.bookingId == bookingId && c.resolved == false) =
        some e →
      (createOrUpdateConflict now s bookingId weatherDataId lvl viol sev).2 = e.id ∧
      (createOrUpdateConflict now s bookingId weatherDataId lvl viol sev).1.conflicts =
        s.conflicts.map (fun c =>
          if c.id == e.id then
            { c with weatherDataId := weatherDataId, violatedConditions := viol,
                     severity := sev, detectedAt := now }
          else c) ∧
      (createOrUpdateConflict now s bookingId weatherDataId lvl viol
          sev).1.conflicts.length = s.conflicts.length) ∧
    (∀ (now1 now2 : ℤ) (s : CState) (bookingId : ℕ) (b : Booking) (st : Student)
        (w : WeatherRow),
      s.bookings.find? (fun x => x.id == bookingId) = some b →
      b.status = .scheduled →
      s.students.find? (fun x => x.id == b.studentId) = some st →
      getLatestWeatherForLocation s b.depLat b.depLon = some w →
      (checkWeatherViolations w.obs st.trainingLevel).1 ≠ [] →
      s.conflicts.filter (fun c => c.bookingId == bookingId) = [] →
      ((checkBookingForConflicts now1 s bookingId).1.conflicts.filter
          (fun c => c.bookingId == bookingId)).length = 1 ∧
      ((checkBookingForConflicts now2
            (checkBookingForConflicts now1 s bookingId).1 bookingId).1.conflicts.filter
          (fun c => c.bookingId == bookingId)).length = 1) := by
  constructor
  · intro now s bookingId weatherDataId lvl viol sev e hfind
    refine ⟨?_, ?_, ?_⟩
    · simp only [createOrUpdateConflict, hfind]
    · simp only [createOrUpdateConflict, hfind]
    · simp only [createOrUpdateConflict, hfind, List.length_map]
  · intro now1 now2 s bookingId b st w hb hstat hst hw hviol hfilter
    have hbs : getBookingWithStudent s bookingId = some (b, st) := by
      simp only [getBookingWithStudent, hb, hst]
    have hnofind : s.conflicts.find?
        (fun c => c.bookingId == bookingId && c.resolved == false) = none := by
      rw [List.find?_eq_none]
      intro x hx h
      have hmem := List.filter_eq_nil_iff.mp hfilter x hx
      rw [Bool.and_eq_true] at h
      exact hmem h.1
    have hrow : checkBookingForConflicts now1 s bookingId =
        (markBookingAsConflict now1
          (createOrUpdateConflict now1 s bookingId w.id st.trainingLevel
            (checkWeatherViolations w.obs st.trainingLevel).1
            (checkWeatherViolations w.obs st.trainingLevel).2).1 bookingId,
         some (.conflict
          (createOrUpdateConflict now1 s bookingId w.id st.trainingLevel
            (checkWeatherViolations w.obs st.trainingLevel).1
            (checkWeatherViolations w.obs st.trainingLevel).2).2
          (checkWeatherViolations w.obs st.trainingLevel).1
          (checkWeatherViolations w.obs st.trainingLevel).2)) := by
      simp only [checkBookingForConflicts, hbs, hw]
      rw [if_neg (by simp [hstat]), if_pos hviol]
    have hcount1 : ((checkBookingForConflicts now1 s bookingId).1.conflicts.filter
        (fun c => c.bookingId == bookingId)).length = 1 := by
      rw [hrow]
      simp only [markBookingAsConflict_conflicts]
      rw [createOrUpdateConflict_conflicts_of_none _ _ _ _ _ _ _ hnofind,
        List.filter_append, hfilter]
      simp
    have hpb : (b.id == bookingId) = true := by
      simpa using List.find?_some hb
    have hg : ∀ x : Booking,
        ((if x.id == bookingId then
            { x with status := BookingStatus.weatherConflict, updatedAt := now1 }
          else x).id == bookingId) = (x.id == bookingId) := by
      intro x
      by_cases hx : (x.id == bookingId) = true
      · rw [if_pos hx]
      · rw [if_neg hx]
    have hbooks2 : (checkBookingForConflicts now1 s bookingId).1.bookings =
        s.bookings.map (fun x =>
          if x.id == bookingId then
            { x with status := BookingStatus.weatherConflict, updatedAt := now1 }
          else x) := by
      rw [hrow]
      simp only [markBookingAsConflict, createOrUpdateConflict_bookings, hb,
        if_pos hstat]
    have hfind2 : (checkBookingForConflicts now1 s bookingId).1.bookings.find?
        (fun x => x.id == bookingId) =
        some { b with status := BookingStatus.weatherConflict, updatedAt := now1 } := by
      rw [hbooks2, find_map_of_key_preserved _ _ hg, hb, Option.map_some',
        if_pos hpb]
    have hstudents2 : (checkBookingForConflicts now1 s bookingId).1.students =
        s.students := by
      rw [hrow]
      simp only [markBookingAsConflict_students, createOrUpdateConflict_students]
    have hbs2 : getBookingWithStudent (checkBookingForConflicts now1 s bookingId).1
        bookingId =
        some ({ b with status := BookingStatus.weatherConflict, updatedAt := now1 },
          st) := by
      simp only [getBookingWithStudent, hfind2, hstudents2, hst]
    have hrun2 : checkBookingForConflicts now2
        (checkBookingForConflicts now1 s bookingId).1 bookingId =
        ((checkBookingForConflicts now1 s bookingId).1, none) := by
      generalize hX : (checkBookingForConflicts now1 s bookingId).1 = X at hbs2 ⊢
      simp [checkBookingForConflicts, hbs2]
    refine ⟨hcount1, ?_⟩
    rw [hrun2]
    exact hcount1

/-- Witness for C1: on the concrete state, after each of two checks exactly
one conflict row exists for the booking. -/
theorem conflict_upsert_single_row_witness :
    ((checkBookingForConflicts 100 wState 0).1.conflicts.filter
        (fun c => c.bookingId == 0)).length = 1 ∧
    ((checkBookingForConflicts 200 (checkBookingForConflicts 100 wState 0).1
          0).1.conflicts.filter
        (fun c => c.bookingId == 0)).length = 1 :=
  conflict_upsert_single_row.2 100 200 wState 0 wBooking wStudent
    wViolatingWeather (by decide) (by decide) (by decide) (by decide)
    (by decide) (by decide)

/-- C7: for every training level and every observation meeting each defined
threshold of that level exactly at the boundary (visibility equal to the
defined minimum, ceiling equal to the defined minimum, wind speed equal to
the maximum, no thunderstorms, no icing, and clear skies where the level
requires them), the rule engine reports an empty violation list: minimums
are exclusive bounds. -/
theorem boundary_observation_has_no_violations
    (weather : WeatherObs) (trainingLevel : TrainingLevel)
    (hvis : ∀ m, (WEATHER_MINIMUMS trainingLevel).minVisibility = some m →
      weather.visibility = m)
    (hceil : ∀ m, (WEATHER_MINIMUMS trainingLevel).minCeiling = some m →
      weather.ceiling = some m)
    (hwind : weather.windSpeed = (WEATHER_MINIMUMS trainingLevel).maxWindSpeed)
    (hts : weather.hasThunderstorms = false)
    (hice : weather.hasIcing = false)
    (hclear : (WEATHER_MINIMUMS trainingLevel).requiresClearSkies = true →
      weather.ceiling = none) :
    (checkWeatherViolations weather trainingLevel).1 = [] := by
  cases trainingLevel <;>
    simp_all [checkWeatherViolations, WEATHER_MINIMUMS, optTruthy]

/-- Witness for C7: a private-pilot observation exactly at the boundary
(visibility 3 mi, ceiling 1000 ft, wind 15 kt, no thunderstorms, no icing)
yields no violations. -/
theorem boundary_observation_has_no_violations_witness :
    (checkWeatherViolations ⟨3, some 1000, 15, false, false⟩ .privatePilot).1 = [] :=
  boundary_observation_has_no_violations ⟨3, some 1000, 15, false, false⟩ .privatePilot
    (by simp [WEATHER_MINIMUMS]) (by simp [WEATHER_MINIMUMS]) rfl rfl rfl
    (by simp [WEATHER_MINIMUMS])

/-- C8: severity is high iff thunderstorms are present, or icing is present,
or wind strictly exceeds 1.5 times the level maximum; otherwise it is medium
iff the violation count is at least 2; otherwise it is low.  In particular
thunderstorms always force severity high. -/
theorem severity_classification (weather : WeatherObs) (trainingLevel : TrainingLevel) :
    ((checkWeatherViolations weather trainingLevel).2 = .high ↔
      (weather.hasThunderstorms = true ∨ weather.hasIcing = true ∨
        weather.windSpeed > (WEATHER_MINIMUMS trainingLevel).maxWindSpeed * 1.5)) ∧
    (¬ (weather.hasThunderstorms = true ∨ weather.hasIcing = true ∨
        weather.windSpeed > (WEATHER_MINIMUMS trainingLevel).maxWindSpeed * 1.5) →
      ((checkWeatherViolations weather trainingLevel).2 = .medium ↔
        (checkWeatherViolations weather trainingLevel).1.length ≥ 2)) ∧
    (¬ (weather.hasThunderstorms = true ∨ weather.hasIcing = true ∨
        weather.windSpeed > (WEATHER_MINIMUMS trainingLevel).maxWindSpeed * 1.5) →
      (checkWeatherViolations weather trainingLevel).1.length < 2 →
      (checkWeatherViolations weather trainingLevel).2 = .low) ∧
    (weather.hasThunderstorms = true →
      (checkWeatherViolations weather trainingLevel).2 = .high) := by
  have hsev : (checkWeatherViolations weather trainingLevel).2 =
      (if weather.hasThunderstorms || weather.hasIcing ||
          decide (weather.windSpeed >
            (WEATHER_MINIMUMS trainingLevel).maxWindSpeed * 1.5) then
        Severity.high
      else if (checkWeatherViolations weather trainingLevel).1.length ≥ 2 then
        Severity.medium
      else Severity.low) := rfl
  by_cases hP : weather.hasThunderstorms = true ∨ weather.hasIcing = true ∨
      weather.windSpeed > (WEATHER_MINIMUMS trainingLevel).maxWindSpeed * 1.5
  · have hb : (weather.hasThunderstorms || weather.hasIcing ||
        decide (weather.windSpeed >
          (WEATHER_MINIMUMS trainingLevel).maxWindSpeed * 1.5)) = true := by
      simp only [Bool.or_eq_true, decide_eq_true_eq]
      tauto
    have h2 : (checkWeatherViolations weather trainingLevel).2 = .high := by
      rw [hsev, hb]
      exact if_pos rfl
    exact ⟨⟨fun _ => hP, fun _ => h2⟩, fun hn => (hn hP).elim,
      fun hn _ => (hn hP).elim, fun _ => h2⟩
  · have hb : (weather.hasThunderstorms || weather.hasIcing ||
        decide (weather.windSpeed >
          (WEATHER_MINIMUMS trainingLevel).maxWindSpeed * 1.5)) = false := by
      cases ht : weather.hasThunderstorms <;> cases hi : weather.hasIcing <;>
        simp_all
    have h2 : (checkWeatherViolations weather trainingLevel).2 =
        (if (checkWeatherViolations weather trainingLevel).1.length ≥ 2 then
          Severity.medium
        else Severity.low) := by
      rw [hsev, hb]
      exact if_neg (by simp)
    refine ⟨?_, ?_, ?_, ?_⟩
    · rw [h2]
      constructor
      · intro h
        by_cases hlen : (checkWeatherViolations weather trainingLevel).1.length ≥ 2
        · rw [if_pos hlen] at h
          exact Severity.noConfusion h
        · rw [if_neg hlen] at h
          exact Severity.noConfusion h
      · intro hp
        exact (hP hp).elim
    · intro hn
      rw [h2]
      by_cases hlen : (checkWeatherViolations weather trainingLevel).1.length ≥ 2
      · rw [if_pos hlen]
        simp [hlen]
      · rw [if_neg hlen]
        simp [hlen]
    · intro hn hlt
      rw [h2, if_neg (by omega)]
    · intro hts
      exact (hP (Or.inl hts)).elim

/-- Witness for C8: a student-pilot observation with thunderstorms present is
classified severity high. -/
theorem severity_classification_witness :
    (checkWeatherViolations ⟨6, none, 3, true, false⟩ .studentPilot).2 = .high :=
  (severity_classification ⟨6, none, 3, true, false⟩ .studentPilot).2.2.2 rfl

/-- C2 (code behavior at the failing input): on a booking whose status is
weather-conflict, with current cached weather producing no violations for
the student, checkBookingForConflicts returns null and leaves the state
completely unchanged: the unresolved conflict row stays unresolved and the
booking status is not reverted to scheduled. -/
theorem checkBooking_skips_weather_conflict_booking :
    (checkWeatherViolations wCleanWeather.obs wStudent.trainingLevel).1 = [] ∧
    wC2Booking.status = BookingStatus.weatherConflict ∧
    wC2Conflict.resolved = false ∧
    checkBookingForConflicts 500 wC2State 0 = (wC2State, none) := by
  decide

/-- C6 counterexample: at time 200 the only cached observation for the
booking location is expired (expiry 100), yet the lookup returns it and
checkBookingForConflicts evaluates it and creates a conflict, instead of
returning the no-data result without touching the conflicts table. -/
theorem expired_weather_still_evaluated :
    wExpiredWeather.expiresAt < 200 ∧
    wC6State.weatherRows = [wExpiredWeather] ∧
    getLatestWeatherForLocation wC6State 1 2 = some wExpiredWeather ∧
    (checkBookingForConflicts 200 wC6State 0).2 ≠ none ∧
    (checkBookingForConflicts 200 wC6State 0).2 ≠ some .noConflict ∧
    (checkBookingForConflicts 200 wC6State 0).1.conflicts.map
      (fun c => (c.bookingId, c.violatedConditions, c.resolved)) =
      [(0, [Violation.visibilityLow 3 5], false)] := by
  decide

/-- C6 amended: the weather lookup used by checkBookingForConflicts ignores
expiry entirely: it returns none exactly when no cached row exists for the
exact location, and otherwise returns a row for that location carrying the
greatest observation timestamp, whether expired or not. -/
theorem conflict_weather_lookup_ignores_expiry (s : CState) (lat lon : ℚ) :
    (getLatestWeatherForLocation s lat lon = none ↔
      s.weatherRows.filter (fun r => r.lat == lat && r.lon == lon) = []) ∧
    (∀ w, getLatestWeatherForLocation s lat lon = some w →
      w ∈ s.weatherRows.filter (fun r => r.lat == lat && r.lon == lon) ∧
      ∀ u ∈ s.weatherRows.filter (fun r => r.lat == lat && r.lon == lon),
        u.timestamp ≤ w.timestamp) := by
  cases hf : s.weatherRows.filter (fun r => r.lat == lat && r.lon == lon) with
  | nil =>
    have hres : getLatestWeatherForLocation s lat lon = none := by
      unfold getLatestWeatherForLocation
      rw [hf]
    rw [hres]
    exact ⟨by simp, fun w hw => Option.noConfusion hw⟩
  | cons h t =>
    have hres : getLatestWeatherForLocation s lat lon =
        some (latestByTimestamp h t) := by
      unfold getLatestWeatherForLocation
      rw [hf]
    rw [hres]
    refine ⟨by simp, ?_⟩
    intro w hw
    have hw2 : latestByTimestamp h t = w := Option.some.inj hw
    subst hw2
    exact ⟨latestByTimestamp_mem t h, latestByTimestamp_le t h⟩

/-- Witness for the amended C6: on the concrete expired-row state, the
lookup result is a member of the location-filtered rows with maximal
timestamp. -/
theorem conflict_weather_lookup_ignores_expiry_witness :
    wExpiredWeather ∈ wC6State.weatherRows.filter
      (fun r => r.lat == 1 && r.lon == 2) ∧
    ∀ u ∈ wC6State.weatherRows.filter (fun r => r.lat == 1 && r.lon == 2),
      u.timestamp ≤ wExpiredWeather.timestamp :=
  (conflict_weather_lookup_ignores_expiry wC6State 1 2).2 wExpiredWeather
    (by decide)

/-- C9: getCachedWeather returns none exactly when no row for the exact
location has expiry strictly greater than now, and otherwise returns such a
valid row of maximal observation timestamp; with the 30-minute TTL, a row
stored at t = 0 is returned at t = 29 min and not at t = 31 min. -/
theorem getCachedWeather_spec :
    (∀ (now : ℤ) (rows : List WeatherRow) (lat lon : ℚ),
      (getCachedWeather now rows lat lon = none ↔
        rows.filter (fun r => r.lat == lat && r.lon == lon &&
          decide (r.expiresAt > now)) = []) ∧
      (∀ w, getCachedWeather now rows lat lon = some w →
        w ∈ rows.filter (fun r => r.lat == lat && r.lon == lon &&
            decide (r.expiresAt > now)) ∧
        ∀ u ∈ rows.filter (fun r => r.lat == lat && r.lon == lon &&
            decide (r.expiresAt > now)), u.timestamp ≤ w.timestamp)) ∧
    (getCachedWeather (29 * 60 * 1000) [wTTLRow] 1 2 = some wTTLRow ∧
      getCachedWeather (31 * 60 * 1000) [wTTLRow] 1 2 = none) := by
  constructor
  · intro now rows lat lon
    cases hf : rows.filter (fun r => r.lat == lat && r.lon == lon &&
        decide (r.expiresAt > now)) with
    | nil =>
      have hres : getCachedWeather now rows lat lon = none := by
        unfold getCachedWeather
        rw [hf]
      rw [hres]
      exact ⟨by simp, fun w hw => Option.noConfusion hw⟩
    | cons h t =>
      have hres : getCachedWeather now rows lat lon =
          some (latestByTimestamp h t) := by
        unfold getCachedWeather
        rw [hf]
      rw [hres]
      refine ⟨by simp, ?_⟩
      intro w hw
      have hw2 : latestByTimestamp h t = w := Option.some.inj hw
      subst hw2
      exact ⟨latestByTimestamp_mem t h, latestByTimestamp_le t h⟩
  · exact ⟨by decide, by decide⟩

/-- Witness for C9: the universally quantified part applied to the concrete
TTL row at t = 29 min. -/
theorem getCachedWeather_spec_witness :
    wTTLRow ∈ [wTTLRow].filter (fun r => r.lat == 1 && r.lon == 2 &&
      decide (r.expiresAt > 29 * 60 * 1000)) ∧
    ∀ u ∈ [wTTLRow].filter (fun r => r.lat == 1 && r.lon == 2 &&
      decide (r.expiresAt > 29 * 60 * 1000)), u.timestamp ≤ wTTLRow.timestamp :=
  (getCachedWeather_spec.1 (29 * 60 * 1000) [wTTLRow] 1 2).2 wTTLRow (by decide)

/-- Out-of-bounds accept: error, input state returned unchanged. -/
theorem accept_oob (now : ℤ) (s : RState) (rid idx : ℕ) (set : OptionSetRow)
    (hset : s.rescheduleOptionSets.find? (fun r => r.id == rid) = some set)
    (hle : set.suggestedDates.length ≤ idx) :
    runAccept now s rid idx = (s, .error ("Invalid option index")) := by
  have hnone : set.suggestedDates[idx]? = none := List.getElem?_eq_none hle
  have hres : acceptRescheduleOption now s rid idx =
      .error ("Invalid option index") := by
    simp only [acceptRescheduleOption, hset, hnone]
  simp only [runAccept, hres]

/-- In-bounds accept: success with the chosen date; the booking row is
patched to the chosen date with status rescheduled and the set row to
accepted with the index recorded.  No status guard is consulted. -/
theorem accept_inbounds (now : ℤ) (s : RState) (rid idx : ℕ)
    (set : OptionSetRow) (b : Booking)
    (hset : s.rescheduleOptionSets.find? (fun r => r.id == rid) = some set)
    (hb : s.bookings.find? (fun x => x.id == set.bookingId) = some b)
    (h : idx < set.suggestedDates.length) :
    (runAccept now s rid idx).2 =
      .ok (set.suggestedDates.get ⟨idx, h⟩).date ∧
    (runAccept now s rid idx).1.bookings.find?
        (fun x => x.id == set.bookingId) =
      some { b with scheduledDate := (set.suggestedDates.get ⟨idx, h⟩).date,
                    status := BookingStatus.rescheduled, updatedAt := now } ∧
    (runAccept now s rid idx).1.rescheduleOptionSets.find?
        (fun r => r.id == rid) =
      some { set with status := RescheduleStatus.accepted,
                      selectedOptionIndex := some idx } := by
  have hsome : set.suggestedDates[idx]? =
      some (set.suggestedDates.get ⟨idx, h⟩) := by
    rw [List.getElem?_eq_getElem h, List.get_eq_getElem]
  have hres : runAccept now s rid idx =
      ({ bookings := s.bookings.map (fun x =>
           if x.id == set.bookingId then
             { x with scheduledDate := (set.suggestedDates.get ⟨idx, h⟩).date,
                      status := BookingStatus.rescheduled, updatedAt := now }
           else x),
         rescheduleOptionSets := s.rescheduleOptionSets.map (fun r =>
           if r.id == rid then
             { r with status := RescheduleStatus.accepted,
                      selectedOptionIndex := some idx }
           else r),
         auditEntries := s.auditEntries + 1 },
       .ok (set.suggestedDates.get ⟨idx, h⟩).date) := by
    simp only [runAccept, acceptRescheduleOption, hset, hsome, hb]
  have hpbB : (b.id == set.bookingId) = true := by
    simpa using List.find?_some hb
  have hpbS : (set.id == rid) = true := by
    simpa using List.find?_some hset
  have hgB : ∀ x : Booking,
      ((if x.id == set.bookingId then
          { x with scheduledDate := (set.suggestedDates.get ⟨idx, h⟩).date,
                   status := BookingStatus.rescheduled, updatedAt := now }
        else x).id == set.bookingId) = (x.id == set.bookingId) := by
    intro x
    by_cases hx : (x.id == set.bookingId) = true
    · rw [if_pos hx]
    · rw [if_neg hx]
  have hgS : ∀ r : OptionSetRow,
      ((if r.id == rid then
          { r with status := RescheduleStatus.accepted,
                   selectedOptionIndex := some idx }
        else r).id == rid) = (r.id == rid) := by
    intro r
    by_cases hr : (r.id == rid) = true
    · rw [if_pos hr]
    · rw [if_neg hr]
  refine ⟨by rw [hres], ?_, ?_⟩
  · have hbooks : (runAccept now s rid idx).1.bookings =
        s.bookings.map (fun x =>
          if x.id == set.bookingId then
            { x with scheduledDate := (set.suggestedDates.get ⟨idx, h⟩).date,
                     status := BookingStatus.rescheduled, updatedAt := now }
          else x) := by
      rw [hres]
    rw [hbooks, find_map_of_key_preserved _ _ hgB, hb, Option.map_some',
      if_pos hpbB]
  · have hsets : (runAccept now s rid idx).1.rescheduleOptionSets =
        s.rescheduleOptionSets.map (fun r =>
          if r.id == rid then
            { r with status := RescheduleStatus.accepted,
                     selectedOptionIndex := some idx }
          else r) := by
      rw [hres]
    rw [hsets, find_map_of_key_preserved _ _ hgS, hset, Option.map_some',
      if_pos hpbS]

/-- C3: accept errors with the invalid-option-index validation error exactly
when the index is out of bounds of the stored options, leaving the state
unchanged; when in bounds it sets the booking scheduled date to the chosen
option date with status rescheduled and the option set to accepted with the
chosen index recorded. -/
theorem acceptRescheduleOption_spec (now : ℤ) (s : RState) (rid idx : ℕ)
    (set : OptionSetRow) (b : Booking)
    (hset : s.rescheduleOptionSets.find? (fun r => r.id == rid) = some set)
    (hb : s.bookings.find? (fun x => x.id == set.bookingId) = some b) :
    (set.suggestedDates.length ≤ idx →
      runAccept now s rid idx = (s, .error ("Invalid option index"))) ∧
    (∀ h : idx < set.suggestedDates.length,
      (runAccept now s rid idx).2 =
        .ok (set.suggestedDates.get ⟨idx, h⟩).date ∧
      (runAccept now s rid idx).1.bookings.find?
          (fun x => x.id == set.bookingId) =
        some { b with scheduledDate := (set.suggestedDates.get ⟨idx, h⟩).date,
                      status := BookingStatus.rescheduled, updatedAt := now } ∧
      (runAccept now s rid idx).1.rescheduleOptionSets.find?
          (fun r => r.id == rid) =
        some { set with status := RescheduleStatus.accepted,
                        selectedOptionIndex := some idx }) :=
  ⟨fun hle => accept_oob now s rid idx set hset hle,
   fun h => accept_inbounds now s rid idx set b hset hb h⟩

/-- Witness for C3: on the concrete pending state, index 5 is rejected with
the validation error and the state is unchanged, while index 1 succeeds
with the date of option 1. -/
theorem acceptRescheduleOption_spec_witness :
    runAccept 300 wRState 0 5 = (wRState, .error ("Invalid option index")) ∧
    (runAccept 300 wRState 0 1).2 = .ok 2222 := by
  constructor
  · exact (acceptRescheduleOption_spec 300 wRState 0 5 wPendingSet wBooking
      (by decide) (by decide)).1 (by decide)
  · have h := ((acceptRescheduleOption_spec 300 wRState 0 1 wPendingSet wBooking
      (by decide) (by decide)).2 (by decide)).1
    exact h.trans (by rfl)

/-- C10 counterexample: on the concrete state whose option set is already
accepted (selectedOptionIndex 0) and whose booking is already rescheduled,
a second accept with index 1 does not error: it succeeds, moves the booking
date again and re-records the index; a reject on the same finalized set
also succeeds. -/
theorem accept_after_accept_succeeds :
    wAcceptedSet.status = RescheduleStatus.accepted ∧
    (runAccept 500 wFinalState 0 1).2 = .ok 2222 ∧
    (runAccept 500 wFinalState 0 1).1.bookings.map Booking.scheduledDate =
      [2222] ∧
    (runAccept 500 wFinalState 0 1).1.rescheduleOptionSets.map
      OptionSetRow.selectedOptionIndex = [some 1] ∧
    (rejectRescheduleOptions wFinalState 0).isOk = true := by
  refine ⟨rfl, by rfl, by decide, by decide, by rfl⟩

/-- C10 amended: accept and reject perform no terminal-state guard.  On a
set whose status is already accepted or rejected, accept with an in-bounds
index succeeds again, re-patching the booking and the set (last write
wins); reject succeeds on any non-pending set. -/
theorem accept_reject_no_finalization_guard :
    (∀ (now : ℤ) (s : RState) (rid idx : ℕ) (set : OptionSetRow) (b : Booking),
      s.rescheduleOptionSets.find? (fun r => r.id == rid) = some set →
      set.status = RescheduleStatus.accepted ∨
        set.status = RescheduleStatus.rejected →
      s.bookings.find? (fun x => x.id == set.bookingId) = some b →
      ∀ h : idx < set.suggestedDates.length,
        (runAccept now s rid idx).2 =
          .ok (set.suggestedDates.get ⟨idx, h⟩).date ∧
        (runAccept now s rid idx).1.rescheduleOptionSets.find?
            (fun r => r.id == rid) =
          some { set with status := RescheduleStatus.accepted,
                          selectedOptionIndex := some idx }) ∧
    (∀ (s : RState) (rid : ℕ) (set : OptionSetRow),
      s.rescheduleOptionSets.find? (fun r => r.id == rid) = some set →
      set.status ≠ RescheduleStatus.pending →
      ∃ s2, rejectRescheduleOptions s rid = .ok s2) := by
  constructor
  · intro now s rid idx set b hset hstat hb h
    exact ⟨(accept_inbounds now s rid idx set b hset hb h).1,
           (accept_inbounds now s rid idx set b hset hb h).2.2⟩
  · intro s rid set hset hstat
    refine ⟨{ bookings := s.bookings,
              rescheduleOptionSets := s.rescheduleOptionSets.map (fun r =>
                if r.id == rid then
                  { r with status := RescheduleStatus.rejected }
                else r),
              auditEntries := s.auditEntries + 1 }, ?_⟩
    simp only [rejectRescheduleOptions, hset]

/-- Witness for the amended C10: both parts applied on the concrete
finalized state. -/
theorem accept_reject_no_finalization_guard_witness :
    (runAccept 500 wFinalState 0 1).2 = .ok 2222 ∧
    ∃ s2, rejectRescheduleOptions wFinalState 0 = .ok s2 := by
  constructor
  · have h := (accept_reject_no_finalization_guard.1 500 wFinalState 0 1
      wAcceptedSet wRescheduledBooking (by decide) (Or.inl (by decide))
      (by decide) (by decide)).1
    exact h.trans (by rfl)
  · exact accept_reject_no_finalization_guard.2 wFinalState 0 wAcceptedSet
      (by decide) (by decide)

/-- C5 counterexample: with both provider keys configured and the primary
call raising while the secondary call would succeed, the secondary is not
attempted and the deterministic fallback is used directly. -/
theorem secondary_not_attempted_on_primary_failure :
    (generateRescheduleAIResponse
      { openaiConfigured := true, anthropicConfigured := true }
      (.error ("OpenAI API error")) (.ok wOkResponse)
      wBookingInfo).anthropicAttempted = false ∧
    (generateRescheduleAIResponse
      { openaiConfigured := true, anthropicConfigured := true }
      (.error ("OpenAI API error")) (.ok wOkResponse)
      wBookingInfo).response = generateFallbackSuggestions wBookingInfo :=
  ⟨rfl, rfl⟩

/-- C5 amended: the provider chain is configuration-based, not
failure-based: the primary is attempted exactly when its key is configured;
the secondary exactly when the primary key is not configured and its own
key is; whichever call is attempted, an error falls directly to the
deterministic fallback, and with no key configured the fallback is used
immediately.  A primary failure never falls through to the secondary. -/
theorem provider_chain_config_based (env : ProviderEnv)
    (oc ac : Except String AIRescheduleResponse) (info : BookingInfo) :
    ((generateRescheduleAIResponse env oc ac info).openaiAttempted =
      env.openaiConfigured) ∧
    ((generateRescheduleAIResponse env oc ac info).anthropicAttempted =
      (!env.openaiConfigured && env.anthropicConfigured)) ∧
    (env.openaiConfigured = true → ∀ r, oc = .ok r →
      (generateRescheduleAIResponse env oc ac info).response = r) ∧
    (env.openaiConfigured = true → ∀ e, oc = .error e →
      (generateRescheduleAIResponse env oc ac info).response =
        generateFallbackSuggestions info) ∧
    (env.openaiConfigured = false → env.anthropicConfigured = true →
      ∀ r, ac = .ok r →
      (generateRescheduleAIResponse env oc ac info).response = r) ∧
    (env.openaiConfigured = false → env.anthropicConfigured = true →
      ∀ e, ac = .error e →
      (generateRescheduleAIResponse env oc ac info).response =
        generateFallbackSuggestions info) ∧
    (env.openaiConfigured = false → env.anthropicConfigured = false →
      (generateRescheduleAIResponse env oc ac info).response =
        generateFallbackSuggestions info) := by
  cases env with
  | mk o a =>
    cases o <;> cases a <;> cases oc <;> cases ac <;>
      simp [generateRescheduleAIResponse]

/-- Witness for the amended C5: with only the secondary configured and its
call succeeding, its response is used. -/
theorem provider_chain_config_based_witness :
    (generateRescheduleAIResponse
      { openaiConfigured := false, anthropicConfigured := true }
      (.error ("x")) (.ok wOkResponse) wBookingInfo).response = wOkResponse :=
  (provider_chain_config_based
    { openaiConfigured := false, anthropicConfigured := true }
    (.error ("x")) (.ok wOkResponse) wBookingInfo).2.2.2.2.1 rfl rfl
    wOkResponse rfl

/-- C4: when the attempted provider raises (or none is configured), the
selection is total and yields exactly the deterministic fallback: 3 options
dated next day 09:00, +2 days 10:00 and +3 days 08:00 relative to the
original date, scores 75, 80, 85 in that order, under the fallback-rules
provider identifier. -/
theorem fallback_three_options (env : ProviderEnv)
    (oc ac : Except String AIRescheduleResponse) (info : BookingInfo)
    (h1 : env.openaiConfigured = true → ∃ e, oc = .error e)
    (h2 : env.openaiConfigured = false → env.anthropicConfigured = true →
      ∃ e, ac = .error e) :
    (generateRescheduleAIResponse env oc ac info).response =
      generateFallbackSuggestions info ∧
    (generateFallbackSuggestions info).options.length = 3 ∧
    (generateFallbackSuggestions info).options.map RescheduleOption.date =
      [((info.originalDate.addDays 1).setHours 9 0 0 0).getTime,
       ((info.originalDate.addDays 2).setHours 10 0 0 0).getTime,
       ((info.originalDate.addDays 3).setHours 8 0 0 0).getTime] ∧
    (generateFallbackSuggestions info).options.map RescheduleOption.score =
      [75, 80, 85] ∧
    (generateFallbackSuggestions info).model = "fallback-rules" := by
  refine ⟨?_, rfl, rfl, rfl, rfl⟩
  by_cases ho : env.openaiConfigured = true
  · obtain ⟨e, he⟩ := h1 ho
    subst he
    simp [generateRescheduleAIResponse, ho]
  · have ho2 : env.openaiConfigured = false := by
      cases henv : env.openaiConfigured
      · rfl
      · exact absurd henv ho
    by_cases ha : env.anthropicConfigured = true
    · obtain ⟨e, he⟩ := h2 ho2 ha
      subst he
      simp [generateRescheduleAIResponse, ho2, ha]
    · have ha2 : env.anthropicConfigured = false := by
        cases henv : env.anthropicConfigured
        · rfl
        · exact absurd henv ha
      simp [generateRescheduleAIResponse, ho2, ha2]

/-- Witness for C4: both providers configured and both raising on the
concrete booking context. -/
theorem fallback_three_options_witness :
    (generateRescheduleAIResponse
      { openaiConfigured := true, anthropicConfigured := true }
      (.error ("a")) (.error ("b")) wBookingInfo).response =
      generateFallbackSuggestions wBookingInfo ∧
    (generateFallbackSuggestions wBookingInfo).options.length = 3 ∧
    (generateFallbackSuggestions wBookingInfo).options.map
      RescheduleOption.date =
      [((wBookingInfo.originalDate.addDays 1).setHours 9 0 0 0).getTime,
       ((wBookingInfo.originalDate.addDays 2).setHours 10 0 0 0).getTime,
       ((wBookingInfo.originalDate.addDays 3).setHours 8 0 0 0).getTime] ∧
    (generateFallbackSuggestions wBookingInfo).options.map
      RescheduleOption.score = [75, 80, 85] ∧
    (generateFallbackSuggestions wBookingInfo).model = "fallback-rules" :=
  fallback_three_options
    { openaiConfigured := true, anthropicConfigured := true }
    (.error ("a")) (.error ("b")) wBookingInfo
    (fun _ => ⟨"a", rfl⟩) (fun hcontra _ => Bool.noConfusion hcontra)

end FlightRescheduler
